import Mathlib

/-!
# tinyui: a shallow embedding of the GTK and Qt back ends

`tinyui` is one abstract widget API (`tiny_ui.h`) with two bindings,
`gtk/tinyui.cc` and `qt/tinyui.cc`, plus the toolkit-independent
`tinyui_common.cc`.

Conventions of the embedding

* A C++ pointer is a natural number, `0` being `NULL`; the address of an
  object (`this`) is carried in a field called `self`.
* A member function becomes a function from the object (and whatever part of
  the toolkit's state it reads) to the new object (and new toolkit state).
* A thrown `std::runtime_error` is the `what()` string, in `Except` for a
  constructor that builds an object and in a `raised` field where global state
  survives the throw.
* Calls made on a caller-supplied handler interface are collected in a list of
  `HandlerCall`, in the order in which they are made.
* `std::wstring`, `QString` and the UTF-8 `std::string` are `String`;
  `encode_utf8` is declared in `tiny_ui.h` and defined outside the sources at
  hand, so it is a parameter wherever it is used.
-/

namespace tinyui

/-- A pointer: an address, `0` is `NULL`. -/
abbrev Ptr := Nat

/-- `NULL`. -/
def NULL : Ptr := 0

/-! ## `tiny_ui.h` -/

/-- `enum Orientation { VERTICAL, HORIZONTAL }`: the enumerators. -/
inductive Orientation where
  | VERTICAL
  | HORIZONTAL
  deriving DecidableEq, Repr

/-- The integer value of an enumerator: `VERTICAL` is 0, `HORIZONTAL` is 1. -/
def Orientation.toInt : Orientation → Int
  | .VERTICAL => 0
  | .HORIZONTAL => 1

/-- `enum IoDirection { IN = 1, OUT = 2 }`, a bitfield. -/
def IN : Nat := 1

/-- `OUT = 2`. -/
def OUT : Nat := 2

/-- A call made on a handler interface (`ButtonEvents`, `ListBoxEvents`,
`IoWatchEvents`): the handler it is made on and its arguments. -/
inductive HandlerCall where
  /-- `handler->clicked(button)` on a `ButtonEvents`. -/
  | button_clicked (handler : Ptr) (button : Ptr)
  /-- `handler->clicked(listbox, item)` on a `ListBoxEvents`. -/
  | listbox_clicked (handler : Ptr) (listbox : Ptr) (item : Ptr)
  /-- `handler->ready(iowatch, dir)` on an `IoWatchEvents`. -/
  | iowatch_ready (handler : Ptr) (iowatch : Ptr) (dir : Nat)
  deriving DecidableEq, Repr

/-! ## `Application` (`tinyui_common.cc`, and the constructor of each back end) -/

/-- The static data of the library: `Application *Application::m_instance`. -/
structure Globals where
  m_instance : Ptr
  deriving DecidableEq, Repr

/-- Static storage is zero-initialised: `m_instance` starts as `NULL`. -/
def Globals.initial : Globals := ⟨NULL⟩

/-- `Application *Application::instance() { return m_instance; }` -/
def Application.instance (g : Globals) : Ptr := g.m_instance

/-- The toolkit start-up call an `Application` constructor makes. -/
inductive StartupCall where
  /-- `gtk_init(argc, argv)` -/
  | gtk_init
  /-- `new QApplication(*argc, *argv)` -/
  | new_QApplication
  deriving DecidableEq, Repr

/-- What running a constructor of `Application` leaves behind: the static data,
the message of the `std::runtime_error` if one was thrown, and the toolkit
calls made. -/
structure ConstructResult where
  globals : Globals
  raised : Option String
  calls : List StartupCall
  deriving DecidableEq, Repr

namespace Gtk

/-- `Application::Application(int *argc, char ***argv)` in `gtk/tinyui.cc`:
```
if (m_instance)
    throw std::runtime_error("Application instance already created");
m_instance = this;
gtk_init(argc, argv);
```
`self` is `this`. -/
def Application.construct (self : Ptr) (g : Globals) : ConstructResult :=
  if g.m_instance ≠ NULL then
    ⟨g, some "Application instance already created", []⟩
  else
    ⟨⟨self⟩, none, [StartupCall.gtk_init]⟩

end Gtk

namespace Qt

/-- `Application::Application(int *argc, char ***argv)` in `qt/tinyui.cc`:
```
if (m_instance)
    throw std::runtime_error("Application instance already created");
m_instance = this;
new QApplication(*argc, *argv);
```
`self` is `this`. -/
def Application.construct (self : Ptr) (g : Globals) : ConstructResult :=
  if g.m_instance ≠ NULL then
    ⟨g, some "Application instance already created", []⟩
  else
    ⟨⟨self⟩, none, [StartupCall.new_QApplication]⟩

end Qt

/-- A run of construction attempts with a given constructor, one per address
in the list, each starting from the static data the previous one left. -/
def constructAll (construct : Ptr → Globals → ConstructResult) :
    List Ptr → Globals → Globals
  | [], g => g
  | p :: ps, g => constructAll construct ps (construct p g).globals

/-! ## `BoxLayout` and the widgets it holds -/

/-- The native box a `BoxLayout` wraps: which of `gtk_hbox_new(false, 3)` and
`gtk_vbox_new(false, 3)` made it, and what `gtk_box_pack_start` packed into it
so far, as pairs of the child's native widget and the `expand` argument. -/
structure GtkBox where
  horizontal : Bool
  homogeneous : Bool
  spacing : Nat
  packed : List (Ptr × Bool)
  deriving DecidableEq, Repr

/-- `gtk_hbox_new(homogeneous, spacing)` -/
def gtk_hbox_new (homogeneous : Bool) (spacing : Nat) : GtkBox :=
  ⟨true, homogeneous, spacing, []⟩

/-- `gtk_vbox_new(homogeneous, spacing)` -/
def gtk_vbox_new (homogeneous : Bool) (spacing : Nat) : GtkBox :=
  ⟨false, homogeneous, spacing, []⟩

/-- `gtk_box_pack_start(box, child, expand, fill, padding)`; `fill` and
`padding` are the constants `true` and `0` at the only call site. -/
def gtk_box_pack_start (box : GtkBox) (child : Ptr) (expand : Bool) : GtkBox :=
  ⟨box.horizontal, box.homogeneous, box.spacing, box.packed ++ [(child, expand)]⟩

namespace Gtk

/-- `BoxLayout` under `TINYUI_GTK`: `m_orientation`, `bool m_expandable[2]`
(slot 0 is `VERTICAL`, slot 1 is `HORIZONTAL`) and the native box. -/
structure BoxLayout where
  m_orientation : Orientation
  m_expandable : Bool × Bool
  m_gtkwidget : GtkBox
  deriving DecidableEq, Repr

/-- `BoxLayout::BoxLayout(Orientation orientation)` in `gtk/tinyui.cc`; the
argument is the integer the enum object holds:
```
m_expandable[HORIZONTAL] = false;
m_expandable[VERTICAL] = false;
switch (orientation) {
case HORIZONTAL: m_gtkwidget = gtk_hbox_new(false, 3); break;
case VERTICAL:   m_gtkwidget = gtk_vbox_new(false, 3); break;
default: throw std::runtime_error("Invalid orientation");
}
``` -/
def BoxLayout.construct (orientation : Int) : Except String BoxLayout :=
  if orientation = Orientation.HORIZONTAL.toInt then
    .ok ⟨.HORIZONTAL, (false, false), gtk_hbox_new false 3⟩
  else if orientation = Orientation.VERTICAL.toInt then
    .ok ⟨.VERTICAL, (false, false), gtk_vbox_new false 3⟩
  else
    .error "Invalid orientation"

end Gtk

namespace Qt

/-- `BoxLayout` under `TINYUI_QT`: the native layout (`QHBoxLayout` or
`QVBoxLayout`) with the native widgets added to it, inside a `QWidget`. -/
structure BoxLayout where
  horizontal : Bool
  added : List Ptr
  deriving DecidableEq, Repr

/-- `BoxLayout::BoxLayout(Orientation orientation)` in `qt/tinyui.cc`:
```
switch (orientation) {
case HORIZONTAL: m_qtlayout = new QHBoxLayout; break;
case VERTICAL:   m_qtlayout = new QVBoxLayout; break;
default: throw std::runtime_error("Invalid orientation");
}
m_qtwidget = new QWidget;
m_qtwidget->setLayout(m_qtlayout);
``` -/
def BoxLayout.construct (orientation : Int) : Except String BoxLayout :=
  if orientation = Orientation.HORIZONTAL.toInt then
    .ok ⟨true, []⟩
  else if orientation = Orientation.VERTICAL.toInt then
    .ok ⟨false, []⟩
  else
    .error "Invalid orientation"

end Qt

/-- The slot of `bool m_expandable[2]` an enumerator indexes. -/
def expandableAt (a : Bool × Bool) : Orientation → Bool
  | .VERTICAL => a.1
  | .HORIZONTAL => a.2

/-- `m_expandable[o] = true`. -/
def expandableSet (a : Bool × Bool) : Orientation → Bool × Bool
  | .VERTICAL => (true, a.2)
  | .HORIZONTAL => (a.1, true)

/-- `Button` and `Entry` keep, besides their native widget, only the handler
pointer: `ButtonEvents *m_handler` and `EntryEvents *m_handler`. -/
structure Button where
  self : Ptr
  m_handler : Ptr
  deriving DecidableEq, Repr

/-- `Button::Button(const std::wstring &label) : m_handler(NULL)` in both back
ends; the native button it creates is connected to `clicked_cb` with `this` as
user data (GTK), to `clicked_slot()` of `this` (Qt). -/
def Button.construct (self : Ptr) : Button := ⟨self, NULL⟩

/-- `void Button::set_handler(... *events) { m_handler = events; }`
(`tinyui_common.cc`). -/
def Button.set_handler (b : Button) (events : Ptr) : Button :=
  ⟨b.self, events⟩

/-- `Entry`: see `Button`. -/
structure Entry where
  self : Ptr
  m_handler : Ptr
  deriving DecidableEq, Repr

namespace Gtk

/-- `bool Button::expandable(Orientation orientation)`:
`return orientation == HORIZONTAL;` -/
def Button.expandable (_b : Button) (orientation : Orientation) : Bool :=
  orientation == Orientation.HORIZONTAL

/-- `bool Entry::expandable(Orientation orientation)`:
`return orientation == HORIZONTAL;` -/
def Entry.expandable (_e : Entry) (orientation : Orientation) : Bool :=
  orientation == Orientation.HORIZONTAL

/-- `void Button::clicked_cb(GtkWidget *widget, Button *button)`:
```
if (button->m_handler)
    button->m_handler->clicked(button);
```
GTK calls it, when the native button emits "clicked", with the user data given
to `g_signal_connect` in the constructor, which is `this`. -/
def Button.clicked_cb (button : Button) : List HandlerCall :=
  if button.m_handler ≠ NULL then
    [HandlerCall.button_clicked button.m_handler button.self]
  else
    []

end Gtk

namespace Qt

/-- `void Button::clicked_slot()`:
```
if (m_handler)
    m_handler->clicked(this);
```
the slot connected to the native button's `clicked()` signal. -/
def Button.clicked_slot (b : Button) : List HandlerCall :=
  if b.m_handler ≠ NULL then
    [HandlerCall.button_clicked b.m_handler b.self]
  else
    []

end Qt

/-! ## The GTK list store behind a `ListBox`

`gtk_list_store_new(2, G_TYPE_STRING, G_TYPE_POINTER)`: rows of a string and a
pointer. The operations embedded below only ever append rows (the destructor of
`ListBoxItem`, which removes one, is not among them), so the index of a row is
stable and stands for its `GtkTreePath`, its `GtkTreeIter` and the
`GtkTreeRowReference` made on it. A failed look-up is `none`. -/

/-- One row of the store: column 0 and column 1. -/
structure GtkRow where
  text : String
  item : Ptr
  deriving DecidableEq, Repr

/-- A mutating call on the list store. -/
inductive StoreCall where
  /-- `gtk_list_store_append(store, &iter)` -/
  | append
  /-- `gtk_list_store_set(store, &iter, 0, text, -1)` -/
  | set_text (iter : Option Nat) (text : String)
  /-- `gtk_list_store_set(store, &iter, 0, text, 1, item, -1)` -/
  | set_text_item (iter : Option Nat) (text : String) (item : Ptr)
  deriving DecidableEq, Repr

/-- The list store: its rows, and the mutating calls made on it so far. -/
structure GtkListStore where
  rows : List GtkRow
  calls : List StoreCall
  deriving DecidableEq, Repr

/-- `gtk_list_store_new(2, G_TYPE_STRING, G_TYPE_POINTER)` -/
def gtk_list_store_new : GtkListStore := ⟨[], []⟩

/-- `gtk_list_store_append(store, &iter)`: a new empty row at the end, `iter`
set to it. -/
def gtk_list_store_append (store : GtkListStore) : GtkListStore × Option Nat :=
  (⟨store.rows ++ [⟨"", NULL⟩], store.calls ++ [StoreCall.append]⟩,
   some store.rows.length)

/-- Overwrite row `i` of a list of rows by `f` of it; other rows are kept. -/
def updateRow (f : GtkRow → GtkRow) : List GtkRow → Nat → List GtkRow
  | [], _ => []
  | r :: rs, 0 => f r :: rs
  | r :: rs, i + 1 => r :: updateRow f rs i

/-- `gtk_list_store_set(store, &iter, 0, text, -1)`; with an invalid iter GTK
returns without touching a row. -/
def gtk_list_store_set_text (store : GtkListStore) (iter : Option Nat)
    (text : String) : GtkListStore :=
  let rows := match iter with
    | some i => updateRow (fun r => ⟨text, r.item⟩) store.rows i
    | none => store.rows
  ⟨rows, store.calls ++ [StoreCall.set_text iter text]⟩

/-- `gtk_list_store_set(store, &iter, 0, text, 1, item, -1)` -/
def gtk_list_store_set_text_item (store : GtkListStore) (iter : Option Nat)
    (text : String) (item : Ptr) : GtkListStore :=
  let rows := match iter with
    | some i => updateRow (fun _ => ⟨text, item⟩) store.rows i
    | none => store.rows
  ⟨rows, store.calls ++ [StoreCall.set_text_item iter text item]⟩

/-- `gtk_tree_model_get_path(model, &iter)` -/
def gtk_tree_model_get_path (_model : GtkListStore) (iter : Option Nat) :
    Option Nat := iter

/-- `gtk_tree_row_reference_new(model, path)`: `NULL` for a path that is not a
row of the model. -/
def gtk_tree_row_reference_new (model : GtkListStore) (path : Option Nat) :
    Option Nat :=
  match path with
  | some i => if i < model.rows.length then some i else none
  | none => none

/-- `gtk_tree_row_reference_get_path(rowref)` -/
def gtk_tree_row_reference_get_path (rowref : Nat) : Option Nat := some rowref

/-- `gtk_tree_model_get_iter(model, &iter, path)`: the iter of the row at
`path`, none when there is no such row. -/
def gtk_tree_model_get_iter (model : GtkListStore) (path : Option Nat) :
    Option Nat :=
  match path with
  | some i => if i < model.rows.length then some i else none
  | none => none

/-- `gtk_tree_model_get_value(model, &iter, 1, &val)` followed by
`g_value_get_pointer(&val)` on a `val` that was zeroed before: the pointer in
column 1 of the row, `NULL` when the iter is not valid. -/
def gtk_tree_model_get_pointer (model : GtkListStore) (iter : Option Nat) : Ptr :=
  match iter with
  | some i =>
    match model.rows.get? i with
    | some r => r.item
    | none => NULL
  | none => NULL

namespace Gtk

/-- `ListBoxItem` under `TINYUI_GTK`: `std::wstring m_text` and
`GtkTreeRowReference *m_rowref` (`none` is `NULL`). -/
structure ListBoxItem where
  self : Ptr
  m_text : String
  m_rowref : Option Nat
  deriving DecidableEq, Repr

/-- `ListBoxItem::ListBoxItem(const std::wstring &text) :
m_text(text), m_rowref(NULL) {}` -/
def ListBoxItem.construct (self : Ptr) (text : String) : ListBoxItem :=
  ⟨self, text, none⟩

/-- `void ListBoxItem::set_text(const std::wstring &text)`:
```
m_text = text;
if (m_rowref == NULL)
    return;
GtkTreeModel *model = gtk_tree_row_reference_get_model(m_rowref);
GtkTreePath *path = gtk_tree_row_reference_get_path(m_rowref);
GtkTreeIter iter;
gtk_tree_model_get_iter(model, &iter, path);
gtk_tree_path_free(path);
gtk_list_store_set(GTK_LIST_STORE(model), &iter, 0, encode_utf8(text).c_str(), -1);
```
`model` is the store the row reference was made on, as it is now. -/
def ListBoxItem.set_text (encode_utf8 : String → String) (item : ListBoxItem)
    (text : String) (model : GtkListStore) : ListBoxItem × GtkListStore :=
  let item1 : ListBoxItem := ⟨item.self, text, item.m_rowref⟩
  match item1.m_rowref with
  | none => (item1, model)
  | some rowref =>
    let path := gtk_tree_row_reference_get_path rowref
    let iter := gtk_tree_model_get_iter model path
    (item1, gtk_list_store_set_text model iter (encode_utf8 text))

/-- `ListBox` under `TINYUI_GTK`: the handler and the list store shown by the
tree view. -/
structure ListBox where
  self : Ptr
  m_handler : Ptr
  m_store : GtkListStore
  deriving DecidableEq, Repr

/-- `ListBox::ListBox() : m_handler(NULL)`, with
`m_store = gtk_list_store_new(2, G_TYPE_STRING, G_TYPE_POINTER)`; the tree
view made on the store is connected to `activated_cb` with `this`. -/
def ListBox.construct (self : Ptr) : ListBox :=
  ⟨self, NULL, gtk_list_store_new⟩

/-- `bool ListBox::expandable(Orientation orientation)`: `return true;` -/
def ListBox.expandable (_l : ListBox) (_orientation : Orientation) : Bool := true

/-- `void ListBox::add_item(ListBoxItem *item)`:
```
GtkTreeIter iter;
gtk_list_store_append(m_store, &iter);
gtk_list_store_set(m_store, &iter, 0, encode_utf8(item->m_text).c_str(), 1, item, -1);
GtkTreePath *path = gtk_tree_model_get_path(GTK_TREE_MODEL(m_store), &iter);
item->m_rowref = gtk_tree_row_reference_new(GTK_TREE_MODEL(m_store), path);
gtk_tree_path_free(path);
``` -/
def ListBox.add_item (encode_utf8 : String → String) (l : ListBox)
    (item : ListBoxItem) : ListBox × ListBoxItem :=
  let (store1, iter) := gtk_list_store_append l.m_store
  let store2 :=
    gtk_list_store_set_text_item store1 iter (encode_utf8 item.m_text) item.self
  let path := gtk_tree_model_get_path store2 iter
  (⟨l.self, l.m_handler, store2⟩,
   ⟨item.self, item.m_text, gtk_tree_row_reference_new store2 path⟩)

/-- `add_item` for each item of a list in turn: the list box afterwards, and
the items as `add_item` left them. -/
def ListBox.add_items (encode_utf8 : String → String) :
    ListBox → List ListBoxItem → ListBox × List ListBoxItem
  | l, [] => (l, [])
  | l, item :: items =>
    let (l1, item1) := ListBox.add_item encode_utf8 l item
    let (l2, items1) := ListBox.add_items encode_utf8 l1 items
    (l2, item1 :: items1)

/-- `void ListBox::activated_cb(GtkTreeView *, GtkTreePath *path,
GtkTreeViewColumn *, ListBox *listbox)`:
```
GtkTreeIter iter;
gtk_tree_model_get_iter(GTK_TREE_MODEL(listbox->m_store), &iter, path);
GValue val;
memset(&val, 0, sizeof val);
gtk_tree_model_get_value(GTK_TREE_MODEL(listbox->m_store), &iter, 1, &val);
ListBoxItem *item = reinterpret_cast<ListBoxItem *>(g_value_get_pointer(&val));
g_value_unset(&val);
if (listbox->m_handler)
    listbox->m_handler->clicked(listbox, item);
```
GTK calls it with the path of the activated row. -/
def ListBox.activated_cb (path : Nat) (listbox : ListBox) : List HandlerCall :=
  let iter := gtk_tree_model_get_iter listbox.m_store (some path)
  let item := gtk_tree_model_get_pointer listbox.m_store iter
  if listbox.m_handler ≠ NULL then
    [HandlerCall.listbox_clicked listbox.m_handler listbox.self item]
  else
    []

/-- The widgets of the GTK back end, the classes that implement
`virtual bool expandable(Orientation)`. -/
inductive Widget where
  | button (b : Button)
  | entry (e : Entry)
  | listbox (l : ListBox)
  | boxlayout (l : BoxLayout)
  deriving DecidableEq, Repr

/-- `bool BoxLayout::expandable(Orientation orientation)`:
`return m_expandable[orientation];` -/
def BoxLayout.expandable (l : BoxLayout) (orientation : Orientation) : Bool :=
  expandableAt l.m_expandable orientation

/-- The virtual call `widget->expandable(orientation)`. -/
def Widget.expandable : Widget → Orientation → Bool
  | .button b, o => Button.expandable b o
  | .entry e, o => Entry.expandable e o
  | .listbox l, o => ListBox.expandable l o
  | .boxlayout l, o => BoxLayout.expandable l o

/-- `void BoxLayout::add_widget(Widget *widget)`:
```
if (widget->expandable(HORIZONTAL))
    m_expandable[HORIZONTAL] = true;
if (widget->expandable(VERTICAL))
    m_expandable[VERTICAL] = true;
gtk_box_pack_start(GTK_BOX(m_gtkwidget), widget->gtk_widget(),
                   widget->expandable(m_orientation), true, 0);
``` -/
def BoxLayout.add_widget (l : BoxLayout) (widget : Widget) (gtk_widget : Ptr) :
    BoxLayout :=
  let e1 := if widget.expandable Orientation.HORIZONTAL then
      expandableSet l.m_expandable Orientation.HORIZONTAL
    else l.m_expandable
  let e2 := if widget.expandable Orientation.VERTICAL then
      expandableSet e1 Orientation.VERTICAL
    else e1
  ⟨l.m_orientation, e2,
   gtk_box_pack_start l.m_gtkwidget gtk_widget (widget.expandable l.m_orientation)⟩

/-- A sequence of `add_widget` calls, each widget in the state it has when it
is added, with its native widget. -/
def BoxLayout.add_widgets : BoxLayout → List (Widget × Ptr) → BoxLayout
  | l, [] => l
  | l, (w, p) :: ws => BoxLayout.add_widgets (BoxLayout.add_widget l w p) ws

end Gtk

/-! ## The Qt list widget behind a `ListBox`

A `QListWidgetItem` is owned by exactly one `ListBoxItem` (made in its
constructor, deleted in its destructor), so it is embedded in it by value; the
`QListWidget` keeps the native items of its rows in order. The data stored under
`Qt::UserRole` is written once, in the constructor of `ListBoxItem`. -/

/-- A native list item: the text shown and the data under `Qt::UserRole`. -/
structure QListWidgetItem where
  text : String
  userRole : Ptr
  deriving DecidableEq, Repr

/-- `new QListWidgetItem(text)`: no user data yet. -/
def QListWidgetItem.new (text : String) : QListWidgetItem := ⟨text, NULL⟩

/-- `qtitem->setData(Qt::UserRole, QVariant::fromValue<void *>(p))` -/
def QListWidgetItem.setData (q : QListWidgetItem) (p : Ptr) : QListWidgetItem :=
  ⟨q.text, p⟩

/-- `qtitem->setText(text)` -/
def QListWidgetItem.setText (q : QListWidgetItem) (text : String) :
    QListWidgetItem :=
  ⟨text, q.userRole⟩

/-- `qtitem->data(Qt::UserRole).value<void *>()` -/
def QListWidgetItem.data (q : QListWidgetItem) : Ptr := q.userRole

/-- `QString::fromStdWString(s)`: the same text as a `QString`. -/
def fromStdWString (s : String) : String := s

namespace Qt

/-- `ListBoxItem` under `TINYUI_QT`: `QListWidgetItem *m_qtitem`. -/
structure ListBoxItem where
  self : Ptr
  m_qtitem : QListWidgetItem
  deriving DecidableEq, Repr

/-- `ListBoxItem::ListBoxItem(const std::wstring &text)`:
```
m_qtitem = new QListWidgetItem(QString::fromStdWString(text));
m_qtitem->setData(Qt::UserRole, QVariant::fromValue<void *>(this));
``` -/
def ListBoxItem.construct (self : Ptr) (text : String) : ListBoxItem :=
  ⟨self, (QListWidgetItem.new (fromStdWString text)).setData self⟩

/-- `void ListBoxItem::set_text(const std::wstring &text)`:
`m_qtitem->setText(QString::fromStdWString(text));` -/
def ListBoxItem.set_text (item : ListBoxItem) (text : String) : ListBoxItem :=
  ⟨item.self, item.m_qtitem.setText (fromStdWString text)⟩

/-- `ListBox` under `TINYUI_QT`: the handler and the rows of the
`QListWidget`. -/
structure ListBox where
  self : Ptr
  m_handler : Ptr
  m_qtwidget : List QListWidgetItem
  deriving DecidableEq, Repr

/-- `ListBox::ListBox() : m_handler(NULL)`, `m_qtwidget = new QListWidget`,
whose `itemActivated` signal is connected to `itemActivated_slot`. -/
def ListBox.construct (self : Ptr) : ListBox := ⟨self, NULL, []⟩

/-- `void ListBox::add_item(ListBoxItem *item)`:
`m_qtwidget->addItem(item->m_qtitem);` -/
def ListBox.add_item (l : ListBox) (item : ListBoxItem) : ListBox :=
  ⟨l.self, l.m_handler, l.m_qtwidget ++ [item.m_qtitem]⟩

/-- `add_item` for each item of a list in turn. -/
def ListBox.add_items : ListBox → List ListBoxItem → ListBox
  | l, [] => l
  | l, item :: items => ListBox.add_items (ListBox.add_item l item) items

/-- `void ListBox::itemActivated_slot(QListWidgetItem *qtitem)`:
```
ListBoxItem *item =
    reinterpret_cast<ListBoxItem *>(qtitem->data(Qt::UserRole).value<void *>());
if (m_handler)
    m_handler->clicked(this, item);
``` -/
def ListBox.itemActivated_slot (l : ListBox) (qtitem : QListWidgetItem) :
    List HandlerCall :=
  let item := qtitem.data
  if l.m_handler ≠ NULL then
    [HandlerCall.listbox_clicked l.m_handler l.self item]
  else
    []

/-- Activation of row `row` of the list widget: Qt emits `itemActivated` with
the native item of that row, which runs the slot; nothing for a row that does
not exist. -/
def ListBox.activate_row (l : ListBox) (row : Nat) : List HandlerCall :=
  match l.m_qtwidget.get? row with
  | some qtitem => ListBox.itemActivated_slot l qtitem
  | none => []

end Qt

/-! ## `IoWatch`

`G_IO_IN` and `G_IO_OUT` are GLib's `GIOCondition` bits, defined outside the
sources at hand: they are parameters. -/

namespace Gtk

/-- `IoWatch` under `TINYUI_GTK`: the handler, the file descriptor of the
channel, and the condition `g_io_add_watch` was given. -/
structure IoWatch where
  self : Ptr
  m_handler : Ptr
  fd : Int
  cond : Nat
  deriving DecidableEq, Repr

/-- The condition mask the constructor computes:
```
int cond = 0;
if (dir & IN)
    cond |= G_IO_IN;
if (dir & OUT)
    cond |= G_IO_OUT;
``` -/
def IoWatch.cond_of_dir (G_IO_IN G_IO_OUT : Nat) (dir : Nat) : Nat :=
  let cond := 0
  let cond := if dir &&& IN ≠ 0 then cond ||| G_IO_IN else cond
  let cond := if dir &&& OUT ≠ 0 then cond ||| G_IO_OUT else cond
  cond

/-- `IoWatch::IoWatch(int fd, IoDirection dir) : m_handler(NULL)`: the channel
on `fd`, watched with `g_io_add_watch(m_iochannel, GIOCondition(cond),
GIOFunc(io_watch_cb), this)`. -/
def IoWatch.construct (G_IO_IN G_IO_OUT : Nat) (self : Ptr) (fd : Int)
    (dir : Nat) : IoWatch :=
  ⟨self, NULL, fd, IoWatch.cond_of_dir G_IO_IN G_IO_OUT dir⟩

/-- `void IoWatch::set_handler(... *events) { m_handler = events; }`
(`tinyui_common.cc`). -/
def IoWatch.set_handler (w : IoWatch) (events : Ptr) : IoWatch :=
  ⟨w.self, events, w.fd, w.cond⟩

/-- The direction `io_watch_cb` computes from the condition it is given:
```
int dir = 0;
if (cond & G_IO_IN)
    dir |= IN;
if (cond & G_IO_OUT)
    dir |= OUT;
``` -/
def IoWatch.dir_of_cond (G_IO_IN G_IO_OUT : Nat) (cond : Nat) : Nat :=
  let dir := 0
  let dir := if cond &&& G_IO_IN ≠ 0 then dir ||| IN else dir
  let dir := if cond &&& G_IO_OUT ≠ 0 then dir ||| OUT else dir
  dir

/-- `bool IoWatch::io_watch_cb(GIOChannel *, GIOCondition cond, IoWatch *iowatch)`:
after computing `dir`,
```
if (iowatch->m_handler)
    iowatch->m_handler->ready(iowatch, IoDirection(dir));
return true;
```
The result is the calls made on the handler and the value returned. -/
def IoWatch.io_watch_cb (G_IO_IN G_IO_OUT : Nat) (cond : Nat) (iowatch : IoWatch) :
    List HandlerCall × Bool :=
  let dir := IoWatch.dir_of_cond G_IO_IN G_IO_OUT cond
  (if iowatch.m_handler ≠ NULL then
     [HandlerCall.iowatch_ready iowatch.m_handler iowatch.self dir]
   else
     [],
   true)

/-- One dispatch of the GLib watch source for a file descriptor that is
`readable` and/or `writable`: GLib calls the watch function once, with the
conditions that hold among those watched, and does not call it when none
holds. -/
def IoWatch.dispatch (G_IO_IN G_IO_OUT : Nat) (w : IoWatch)
    (readable writable : Bool) : List HandlerCall :=
  let revents := (if readable then G_IO_IN else 0) ||| (if writable then G_IO_OUT else 0)
  let cond := revents &&& w.cond
  if cond ≠ 0 then (IoWatch.io_watch_cb G_IO_IN G_IO_OUT cond w).1 else []

end Gtk

namespace Qt

/-- `IoWatch` under `TINYUI_QT`: the handler and the two notifiers, each the
file descriptor it watches or `none` for `NULL`. -/
structure IoWatch where
  self : Ptr
  m_handler : Ptr
  m_rd_notifier : Option Int
  m_wr_notifier : Option Int
  deriving DecidableEq, Repr

/-- `IoWatch::IoWatch(int fd, IoDirection dir) :
m_handler(NULL), m_rd_notifier(NULL), m_wr_notifier(NULL)`:
```
if (dir & IN) {
    m_rd_notifier = new QSocketNotifier(fd, QSocketNotifier::Read);
    connect(m_rd_notifier, SIGNAL(activated(int)), SLOT(rd_activated_slot()));
}
if (dir & OUT) {
    m_wr_notifier = new QSocketNotifier(fd, QSocketNotifier::Write);
    connect(m_wr_notifier, SIGNAL(activated(int)), SLOT(wr_activated_slot()));
}
``` -/
def IoWatch.construct (self : Ptr) (fd : Int) (dir : Nat) : IoWatch :=
  let rd := if dir &&& IN ≠ 0 then some fd else none
  let wr := if dir &&& OUT ≠ 0 then some fd else none
  ⟨self, NULL, rd, wr⟩

/-- `void IoWatch::set_handler(... *events) { m_handler = events; }`
(`tinyui_common.cc`). -/
def IoWatch.set_handler (w : IoWatch) (events : Ptr) : IoWatch :=
  ⟨w.self, events, w.m_rd_notifier, w.m_wr_notifier⟩

/-- `void IoWatch::rd_activated_slot()`:
`if (m_handler) m_handler->ready(this, IN);` -/
def IoWatch.rd_activated_slot (w : IoWatch) : List HandlerCall :=
  if w.m_handler ≠ NULL then
    [HandlerCall.iowatch_ready w.m_handler w.self IN]
  else
    []

/-- `void IoWatch::wr_activated_slot()`:
`if (m_handler) m_handler->ready(this, OUT);` -/
def IoWatch.wr_activated_slot (w : IoWatch) : List HandlerCall :=
  if w.m_handler ≠ NULL then
    [HandlerCall.iowatch_ready w.m_handler w.self OUT]
  else
    []

/-- One pass of the Qt event loop over a file descriptor that is `readable`
and/or `writable`: a `Read` notifier that exists emits `activated` when the
descriptor is readable, a `Write` notifier that exists when it is writable,
and each runs its own slot. -/
def IoWatch.dispatch (w : IoWatch) (readable writable : Bool) :
    List HandlerCall :=
  (if w.m_rd_notifier.isSome && readable then IoWatch.rd_activated_slot w else [])
    ++ (if w.m_wr_notifier.isSome && writable then IoWatch.wr_activated_slot w else [])

end Qt

/-- The directions a list of handler calls reports, or-ed together. -/
def readyDirs : List HandlerCall → Nat
  | [] => 0
  | HandlerCall.iowatch_ready _ _ d :: cs => d ||| readyDirs cs
  | _ :: cs => readyDirs cs

/-! ## `Window` -/

/-- The native top-level window of the GTK back end. -/
structure GtkWindow where
  title : String
  border_width : Nat
  child : Option Ptr
  visible : Bool
  deriving DecidableEq, Repr

/-- A call on a native `QWidget`. -/
inductive QWidgetCall where
  /-- `w->setWindowTitle(title)` -/
  | setWindowTitle (w : Ptr) (title : String)
  /-- `w->show()` -/
  | show (w : Ptr)
  deriving DecidableEq, Repr

namespace Gtk

/-- `Window` under `TINYUI_GTK`: `GtkWidget *m_gtkwidget`, the window made by
the constructor. -/
structure Window where
  m_gtkwidget : GtkWindow
  deriving DecidableEq, Repr

/-- `Window::Window(const std::wstring &title)`:
```
m_gtkwidget = gtk_window_new(GTK_WINDOW_TOPLEVEL);
gtk_container_set_border_width(GTK_CONTAINER(m_gtkwidget), 5);
gtk_window_set_title(GTK_WINDOW(m_gtkwidget), encode_utf8(title).c_str());
``` -/
def Window.construct (encode_utf8 : String → String) (title : String) : Window :=
  ⟨⟨encode_utf8 title, 5, none, false⟩⟩

/-- `void Window::set_widget(Widget *widget)`:
`gtk_container_add(GTK_CONTAINER(m_gtkwidget), widget->gtk_widget());` -/
def Window.set_widget (w : Window) (gtk_widget : Ptr) : Window :=
  ⟨⟨w.m_gtkwidget.title, w.m_gtkwidget.border_width, some gtk_widget,
    w.m_gtkwidget.visible⟩⟩

/-- `void Window::show()`: `gtk_widget_show_all(m_gtkwidget);` -/
def Window.show (w : Window) : Window :=
  ⟨⟨w.m_gtkwidget.title, w.m_gtkwidget.border_width, w.m_gtkwidget.child, true⟩⟩

end Gtk

namespace Qt

/-- `Window` under `TINYUI_QT`: `QWidget *m_qtwidget` and `std::wstring
m_title`. `m_qtwidget` is `none` as long as nothing was ever stored in it: the
member has no initialiser. -/
structure Window where
  m_qtwidget : Option Ptr
  m_title : String
  deriving DecidableEq, Repr

/-- `Window::Window(const std::wstring &title) : m_title(title) {}`:
`m_qtwidget` is left as it is. -/
def Window.construct (title : String) : Window := ⟨none, title⟩

/-- `void Window::set_widget(Widget *widget)`:
```
m_qtwidget = widget->qt_widget();
m_qtwidget->setWindowTitle(QString::fromStdWString(m_title));
```
The result is the window and the native calls made. -/
def Window.set_widget (w : Window) (qt_widget : Ptr) :
    Window × List QWidgetCall :=
  (⟨some qt_widget, w.m_title⟩,
   [QWidgetCall.setWindowTitle qt_widget (fromStdWString w.m_title)])

/-- `void Window::show()`: `m_qtwidget->show();`. The result is the native
calls made, or `none` when the pointer that is dereferenced was never
assigned, which is undefined behaviour in C++. -/
def Window.show (w : Window) : Option (List QWidgetCall) :=
  match w.m_qtwidget with
  | some p => some [QWidgetCall.show p]
  | none => none

end Qt

/-! ## Derived observations used to state the properties -/

namespace Gtk

/-- What the handler `h` of a GTK `IoWatch` made at `self` on `fd` for `dir`
receives in one dispatch on a descriptor that is `readable` and/or
`writable`. -/
def IoWatch.delivered (G_IO_IN G_IO_OUT : Nat) (self h : Ptr) (fd : Int)
    (dir : Nat) (readable writable : Bool) : List HandlerCall :=
  IoWatch.dispatch G_IO_IN G_IO_OUT
    (IoWatch.set_handler (IoWatch.construct G_IO_IN G_IO_OUT self fd dir) h)
    readable writable

/-- The widget is a `Button` or an `Entry`. -/
def Widget.isButtonOrEntry : Widget → Bool
  | .button _ => true
  | .entry _ => true
  | _ => false

/-- The widget is a `ListBox`. -/
def Widget.isListBox : Widget → Bool
  | .listbox _ => true
  | _ => false

end Gtk

namespace Qt

/-- What the handler `h` of a Qt `IoWatch` made at `self` on `fd` for `dir`
receives in one pass on a descriptor that is `readable` and/or `writable`. -/
def IoWatch.delivered (self h : Ptr) (fd : Int) (dir : Nat)
    (readable writable : Bool) : List HandlerCall :=
  IoWatch.dispatch (IoWatch.set_handler (IoWatch.construct self fd dir) h)
    readable writable

end Qt

namespace Gtk

/-- A run of `set_text` calls on one item, one per text of the list, each on
the list store as the previous call left it: the item and the store
afterwards. -/
def ListBoxItem.set_texts (encode_utf8 : String → String) :
    ListBoxItem → List String → GtkListStore → ListBoxItem × GtkListStore
  | item, [], model => (item, model)
  | item, text :: texts, model =>
    let (item1, model1) := ListBoxItem.set_text encode_utf8 item text model
    ListBoxItem.set_texts encode_utf8 item1 texts model1

end Gtk

/-! ## Theorems -/

/-- C1: in both back ends, constructing an `Application` raises the runtime
error "Application instance already created" exactly when an instance is
already registered (`Application::instance()` is not `NULL`), and raises
nothing exactly when no instance is registered. -/
theorem application_construct_raises_iff_registered (self : Ptr) (g : Globals) :
    ((Gtk.Application.construct self g).raised
        = some "Application instance already created"
      ↔ Application.instance g ≠ NULL) ∧
    ((Gtk.Application.construct self g).raised = none
      ↔ Application.instance g = NULL) ∧
    ((Qt.Application.construct self g).raised
        = some "Application instance already created"
      ↔ Application.instance g ≠ NULL) ∧
    ((Qt.Application.construct self g).raised = none
      ↔ Application.instance g = NULL) := by
  unfold Gtk.Application.construct Qt.Application.construct Application.instance
  by_cases h : g.m_instance = NULL <;> simp [h]

/-- C2: in both back ends the constructor of `BoxLayout` raises, and then with
the message "Invalid orientation", exactly for the orientation values that are
neither `HORIZONTAL` nor `VERTICAL`; for these two values it returns a
layout. -/
theorem boxlayout_construct_raises_iff_invalid (orientation : Int) :
    (Gtk.BoxLayout.construct orientation = Except.error "Invalid orientation"
      ↔ (orientation ≠ Orientation.HORIZONTAL.toInt
          ∧ orientation ≠ Orientation.VERTICAL.toInt)) ∧
    ((∃ l, Gtk.BoxLayout.construct orientation = Except.ok l)
      ↔ (orientation = Orientation.HORIZONTAL.toInt
          ∨ orientation = Orientation.VERTICAL.toInt)) ∧
    (Qt.BoxLayout.construct orientation = Except.error "Invalid orientation"
      ↔ (orientation ≠ Orientation.HORIZONTAL.toInt
          ∧ orientation ≠ Orientation.VERTICAL.toInt)) ∧
    ((∃ l, Qt.BoxLayout.construct orientation = Except.ok l)
      ↔ (orientation = Orientation.HORIZONTAL.toInt
          ∨ orientation = Orientation.VERTICAL.toInt)) := by
  unfold Gtk.BoxLayout.construct Qt.BoxLayout.construct
  by_cases h1 : orientation = Orientation.HORIZONTAL.toInt
  · simp [h1]
  · by_cases h2 : orientation = Orientation.VERTICAL.toInt
    · simp [h2, Orientation.toInt]
    · simp [h1, h2]

/-- A run of `set_handler` calls leaves the address of the button alone and
keeps the last handler given (the one it had, if the run is empty). -/
theorem Button.foldl_set_handler (hs : List Ptr) (b : Button) :
    hs.foldl Button.set_handler b = ⟨b.self, hs.getLast?.getD b.m_handler⟩ := by
  induction hs using List.reverseRecOn with
  | nil => rfl
  | append_singleton l a ih =>
    rw [List.foldl_append, ih]
    simp [Button.set_handler]

/-- C3: for every `Button` (its address `self`) and every run `hs` of
`set_handler` calls made on it since construction, in both back ends the
native "clicked" callback makes exactly one call `clicked(self)` on the handler
given last when that handler is not `NULL`, and makes no call when no handler
was ever given or the last one given is `NULL`. -/
theorem button_click_reaches_last_handler (self : Ptr) (hs : List Ptr) :
    Gtk.Button.clicked_cb (hs.foldl Button.set_handler (Button.construct self))
      = (if hs.getLast?.getD NULL ≠ NULL then
           [HandlerCall.button_clicked (hs.getLast?.getD NULL) self]
         else []) ∧
    Qt.Button.clicked_slot (hs.foldl Button.set_handler (Button.construct self))
      = (if hs.getLast?.getD NULL ≠ NULL then
           [HandlerCall.button_clicked (hs.getLast?.getD NULL) self]
         else []) := by
  rw [Button.foldl_set_handler]
  exact ⟨rfl, rfl⟩

/-- Setting the last row of a store that was just appended to. -/
theorem updateRow_append_length (f : GtkRow → GtkRow) (rows : List GtkRow)
    (r : GtkRow) : updateRow f (rows ++ [r]) rows.length = rows ++ [f r] := by
  induction rows with
  | nil => rfl
  | cons a t ih => simp [updateRow, ih]

/-- `add_item` in the GTK back end appends one row, holding the encoded text of
the item and its address, and leaves the rest of the list box alone. -/
theorem Gtk.ListBox.add_item_fst (enc : String → String) (l : Gtk.ListBox)
    (item : Gtk.ListBoxItem) :
    (Gtk.ListBox.add_item enc l item).1.self = l.self ∧
    (Gtk.ListBox.add_item enc l item).1.m_handler = l.m_handler ∧
    (Gtk.ListBox.add_item enc l item).1.m_store.rows
      = l.m_store.rows ++ [⟨enc item.m_text, item.self⟩] := by
  simp [Gtk.ListBox.add_item, gtk_list_store_append, gtk_list_store_set_text_item,
    updateRow_append_length]

/-- The rows after a run of `add_item` calls in the GTK back end. -/
theorem Gtk.ListBox.add_items_fst (enc : String → String)
    (items : List Gtk.ListBoxItem) (l : Gtk.ListBox) :
    (Gtk.ListBox.add_items enc l items).1.self = l.self ∧
    (Gtk.ListBox.add_items enc l items).1.m_handler = l.m_handler ∧
    (Gtk.ListBox.add_items enc l items).1.m_store.rows
      = l.m_store.rows ++ items.map (fun it => ⟨enc it.m_text, it.self⟩) := by
  induction items generalizing l with
  | nil => simp [Gtk.ListBox.add_items]
  | cons a t ih =>
    obtain ⟨h1, h2, h3⟩ := Gtk.ListBox.add_item_fst enc l a
    obtain ⟨i1, i2, i3⟩ := ih (Gtk.ListBox.add_item enc l a).1
    simp only [Gtk.ListBox.add_items]
    refine ⟨by rw [i1, h1], by rw [i2, h2], ?_⟩
    rw [i3, h3]
    simp

/-- The list box after a run of `add_item` calls in the Qt back end. -/
theorem Qt.ListBox.add_items_eq (items : List Qt.ListBoxItem) (l : Qt.ListBox) :
    Qt.ListBox.add_items l items
      = ⟨l.self, l.m_handler, l.m_qtwidget ++ items.map (fun it => it.m_qtitem)⟩ := by
  induction items generalizing l with
  | nil => simp [Qt.ListBox.add_items]
  | cons a t ih => simp [Qt.ListBox.add_items, ih, Qt.ListBox.add_item]

/-- C4: for every `ListBox` whose handler is not `NULL` and every sequence of
distinct `ListBoxItem`s added to it with `add_item`, activating the row of the
`k`-th added item (the row after those the list box already had) makes exactly
one call `clicked(listbox, item)` on the handler, with that list box and that
`k`-th item, in both back ends. In the Qt back end the item is read back from
the data its constructor stored in the native item, which `set_text` keeps. -/
theorem listbox_activation_reaches_added_item (enc : String → String)
    (gl : Gtk.ListBox) (gitems : List Gtk.ListBoxItem)
    (ql : Qt.ListBox) (qitems : List Qt.ListBoxItem) (k : Nat)
    (hgh : gl.m_handler ≠ NULL) (hqh : ql.m_handler ≠ NULL)
    (_hgd : (gitems.map (fun it => it.self)).Nodup)
    (_hqd : (qitems.map (fun it => it.self)).Nodup)
    (hqdata : ∀ it ∈ qitems, it.m_qtitem.data = it.self)
    (hgk : k < gitems.length) (hqk : k < qitems.length) :
    Gtk.ListBox.activated_cb (gl.m_store.rows.length + k)
        (Gtk.ListBox.add_items enc gl gitems).1
      = [HandlerCall.listbox_clicked gl.m_handler gl.self (gitems.get ⟨k, hgk⟩).self] ∧
    Qt.ListBox.activate_row (Qt.ListBox.add_items ql qitems) (ql.m_qtwidget.length + k)
      = [HandlerCall.listbox_clicked ql.m_handler ql.self (qitems.get ⟨k, hqk⟩).self] ∧
    (∀ self text, (Qt.ListBoxItem.construct self text).m_qtitem.data = self) ∧
    (∀ it text, (Qt.ListBoxItem.set_text it text).m_qtitem.data = it.m_qtitem.data) := by
  refine ⟨?_, ?_, fun _ _ => rfl, fun _ _ => rfl⟩
  · obtain ⟨h1, h2, h3⟩ := Gtk.ListBox.add_items_fst enc gitems gl
    unfold Gtk.ListBox.activated_cb
    rw [h1, h2, if_pos hgh]
    simp only [gtk_tree_model_get_iter, gtk_tree_model_get_pointer, h3]
    simp [hgk, List.getElem_append_right]
  · rw [Qt.ListBox.add_items_eq]
    unfold Qt.ListBox.activate_row
    simp only [List.get?_eq_getElem?]
    rw [List.getElem?_append_right (Nat.le_add_right _ _)]
    simp only [Nat.add_sub_cancel_left]
    rw [List.getElem?_map, List.getElem?_eq_getElem hqk]
    simp only [Option.map_some']
    unfold Qt.ListBox.itemActivated_slot
    rw [if_pos hqh, hqdata _ (List.getElem_mem _)]
    rfl

/-- C4, at a list box with handler `7` to which the items at `1` and `2` are
added, for the row of the second. -/
theorem listbox_activation_reaches_added_item_witness :
    Gtk.ListBox.activated_cb (0 + 1)
        (Gtk.ListBox.add_items (fun s => s) ⟨50, 7, gtk_list_store_new⟩
          [Gtk.ListBoxItem.construct 1 "a", Gtk.ListBoxItem.construct 2 "b"]).1
      = [HandlerCall.listbox_clicked 7 50 2] ∧
    Qt.ListBox.activate_row
        (Qt.ListBox.add_items ⟨50, 7, []⟩
          [Qt.ListBoxItem.construct 1 "a", Qt.ListBoxItem.construct 2 "b"]) (0 + 1)
      = [HandlerCall.listbox_clicked 7 50 2] :=
  ⟨(listbox_activation_reaches_added_item (fun s => s) ⟨50, 7, gtk_list_store_new⟩
      [Gtk.ListBoxItem.construct 1 "a", Gtk.ListBoxItem.construct 2 "b"]
      ⟨50, 7, []⟩ [Qt.ListBoxItem.construct 1 "a", Qt.ListBoxItem.construct 2 "b"] 1
      (by decide) (by decide) (by decide) (by decide)
      (by intro it hit; simp at hit; rcases hit with rfl | rfl <;> rfl)
      (by decide) (by decide)).1,
   (listbox_activation_reaches_added_item (fun s => s) ⟨50, 7, gtk_list_store_new⟩
      [Gtk.ListBoxItem.construct 1 "a", Gtk.ListBoxItem.construct 2 "b"]
      ⟨50, 7, []⟩ [Qt.ListBoxItem.construct 1 "a", Qt.ListBoxItem.construct 2 "b"] 1
      (by decide) (by decide) (by decide) (by decide)
      (by intro it hit; simp at hit; rcases hit with rfl | rfl <;> rfl)
      (by decide) (by decide)).2.1⟩

/-- Of two disjoint masks or-ed together, and-ing with the first gives the
first. -/
theorem or_and_self_left (a b : Nat) (h : a &&& b = 0) : (a ||| b) &&& a = a := by
  rw [Nat.and_distrib_right, Nat.and_self, Nat.and_comm b a, h, Nat.or_zero]

/-- Of two disjoint masks or-ed together, and-ing with the second gives the
second. -/
theorem or_and_self_right (a b : Nat) (h : a &&& b = 0) : (a ||| b) &&& b = b := by
  rw [Nat.and_distrib_right, Nat.and_self, h, Nat.zero_or]

/-- The mask the GTK constructor computes for each of the three directions. -/
theorem Gtk.IoWatch.cond_of_dir_cases (gi go : Nat) :
    Gtk.IoWatch.cond_of_dir gi go IN = gi ∧
    Gtk.IoWatch.cond_of_dir gi go OUT = go ∧
    Gtk.IoWatch.cond_of_dir gi go (IN ||| OUT) = gi ||| go := by
  refine ⟨?_, ?_, ?_⟩ <;> simp [Gtk.IoWatch.cond_of_dir, IN, OUT]

/-- The direction `io_watch_cb` computes, by which of the two bits the
condition has. -/
theorem Gtk.IoWatch.dir_of_cond_eq (gi go cond : Nat) :
    Gtk.IoWatch.dir_of_cond gi go cond
      = (if cond &&& gi ≠ 0 then IN else 0) ||| (if cond &&& go ≠ 0 then OUT else 0) := by
  unfold Gtk.IoWatch.dir_of_cond
  by_cases h1 : cond &&& gi = 0 <;> by_cases h2 : cond &&& go = 0 <;>
    simp [h1, h2]

/-- C8: in the GTK back end, with `G_IO_IN` and `G_IO_OUT` two non-empty
disjoint masks, for `dir` one of `IN`, `OUT`, `IN|OUT` the mask the
constructor computes has `G_IO_IN` iff `dir` has `IN` and `G_IO_OUT` iff `dir`
has `OUT`, and `io_watch_cb` translates it back to exactly `dir`; and for
every mask `cond` the direction `io_watch_cb` passes to `ready` has `IN` iff
`cond` has `G_IO_IN`, has `OUT` iff `cond` has `G_IO_OUT`, and has no other
bit. -/
theorem iowatch_direction_round_trip (G_IO_IN G_IO_OUT : Nat)
    (hin : G_IO_IN ≠ 0) (hout : G_IO_OUT ≠ 0) (hdisj : G_IO_IN &&& G_IO_OUT = 0)
    (self : Ptr) (fd : Int) (dir : Nat)
    (hdir : dir = IN ∨ dir = OUT ∨ dir = IN ||| OUT)
    (cond : Nat) (w : Gtk.IoWatch) :
    ((Gtk.IoWatch.construct G_IO_IN G_IO_OUT self fd dir).cond &&& G_IO_IN ≠ 0
      ↔ dir &&& IN ≠ 0) ∧
    ((Gtk.IoWatch.construct G_IO_IN G_IO_OUT self fd dir).cond &&& G_IO_OUT ≠ 0
      ↔ dir &&& OUT ≠ 0) ∧
    Gtk.IoWatch.dir_of_cond G_IO_IN G_IO_OUT
      (Gtk.IoWatch.construct G_IO_IN G_IO_OUT self fd dir).cond = dir ∧
    (Gtk.IoWatch.dir_of_cond G_IO_IN G_IO_OUT cond &&& IN ≠ 0
      ↔ cond &&& G_IO_IN ≠ 0) ∧
    (Gtk.IoWatch.dir_of_cond G_IO_IN G_IO_OUT cond &&& OUT ≠ 0
      ↔ cond &&& G_IO_OUT ≠ 0) ∧
    Gtk.IoWatch.dir_of_cond G_IO_IN G_IO_OUT cond &&& (IN ||| OUT)
      = Gtk.IoWatch.dir_of_cond G_IO_IN G_IO_OUT cond ∧
    (Gtk.IoWatch.io_watch_cb G_IO_IN G_IO_OUT cond w).1
      = (if w.m_handler ≠ NULL then
           [HandlerCall.iowatch_ready w.m_handler w.self
              (Gtk.IoWatch.dir_of_cond G_IO_IN G_IO_OUT cond)]
         else []) := by
  have hdisj2 : G_IO_OUT &&& G_IO_IN = 0 := by rw [Nat.and_comm]; exact hdisj
  obtain ⟨c1, c2, c3⟩ := Gtk.IoWatch.cond_of_dir_cases G_IO_IN G_IO_OUT
  have hall : ∀ c, (Gtk.IoWatch.dir_of_cond G_IO_IN G_IO_OUT c &&& IN ≠ 0
        ↔ c &&& G_IO_IN ≠ 0) ∧
      (Gtk.IoWatch.dir_of_cond G_IO_IN G_IO_OUT c &&& OUT ≠ 0
        ↔ c &&& G_IO_OUT ≠ 0) ∧
      Gtk.IoWatch.dir_of_cond G_IO_IN G_IO_OUT c &&& (IN ||| OUT)
        = Gtk.IoWatch.dir_of_cond G_IO_IN G_IO_OUT c := by
    intro c
    rw [Gtk.IoWatch.dir_of_cond_eq]
    by_cases h1 : c &&& G_IO_IN = 0 <;> by_cases h2 : c &&& G_IO_OUT = 0 <;>
      simp [h1, h2, IN, OUT]
    decide
  refine ⟨?_, ?_, ?_, (hall cond).1, (hall cond).2.1, (hall cond).2.2, rfl⟩
  · rcases hdir with rfl | rfl | rfl <;>
      simp only [Gtk.IoWatch.construct, c1, c2, c3] <;>
      simp [Nat.and_self, hin, hdisj2, or_and_self_left _ _ hdisj, IN, OUT]
  · rcases hdir with rfl | rfl | rfl <;>
      simp only [Gtk.IoWatch.construct, c1, c2, c3] <;>
      simp [Nat.and_self, hout, hdisj, or_and_self_right _ _ hdisj, IN, OUT]
  · rw [Gtk.IoWatch.dir_of_cond_eq]
    rcases hdir with rfl | rfl | rfl <;>
      simp only [Gtk.IoWatch.construct, c1, c2, c3] <;>
      simp [Nat.and_self, hin, hout, hdisj, hdisj2, or_and_self_left _ _ hdisj,
        or_and_self_right _ _ hdisj, IN, OUT]

/-- C8, at GLib's values `G_IO_IN = 1` and `G_IO_OUT = 4`, for `dir = IN|OUT`
and the mask `5`. -/
theorem iowatch_direction_round_trip_witness :
    ((Gtk.IoWatch.construct 1 4 100 3 (IN ||| OUT)).cond &&& 1 ≠ 0
      ↔ (IN ||| OUT) &&& IN ≠ 0) ∧
    ((Gtk.IoWatch.construct 1 4 100 3 (IN ||| OUT)).cond &&& 4 ≠ 0
      ↔ (IN ||| OUT) &&& OUT ≠ 0) ∧
    Gtk.IoWatch.dir_of_cond 1 4
      (Gtk.IoWatch.construct 1 4 100 3 (IN ||| OUT)).cond = IN ||| OUT ∧
    (Gtk.IoWatch.dir_of_cond 1 4 5 &&& IN ≠ 0 ↔ 5 &&& 1 ≠ 0) ∧
    (Gtk.IoWatch.dir_of_cond 1 4 5 &&& OUT ≠ 0 ↔ 5 &&& 4 ≠ 0) ∧
    Gtk.IoWatch.dir_of_cond 1 4 5 &&& (IN ||| OUT) = Gtk.IoWatch.dir_of_cond 1 4 5 ∧
    (Gtk.IoWatch.io_watch_cb 1 4 5 ⟨100, 7, 3, 5⟩).1
      = (if (⟨100, 7, 3, 5⟩ : Gtk.IoWatch).m_handler ≠ NULL then
           [HandlerCall.iowatch_ready (⟨100, 7, 3, 5⟩ : Gtk.IoWatch).m_handler
              (⟨100, 7, 3, 5⟩ : Gtk.IoWatch).self (Gtk.IoWatch.dir_of_cond 1 4 5)]
         else []) :=
  iowatch_direction_round_trip 1 4 (by decide) (by decide) (by decide) 100 3
    (IN ||| OUT) (Or.inr (Or.inr rfl)) 5 ⟨100, 7, 3, 5⟩

/-- C5, refuted as stated: with GLib's `G_IO_IN = 1` and `G_IO_OUT = 4`, an
`IoWatch` for `IN|OUT` with a handler, on a descriptor that is readable and
writable at once, delivers one call `ready(IN|OUT)` in the GTK back end and
the two calls `ready(IN)`, `ready(OUT)` in the Qt back end. -/
theorem iowatch_backends_differ_when_both_ready :
    Gtk.IoWatch.delivered 1 4 100 7 3 (IN ||| OUT) true true
      = [HandlerCall.iowatch_ready 7 100 3] ∧
    Qt.IoWatch.delivered 100 7 3 (IN ||| OUT) true true
      = [HandlerCall.iowatch_ready 7 100 1, HandlerCall.iowatch_ready 7 100 2] ∧
    Gtk.IoWatch.delivered 1 4 100 7 3 (IN ||| OUT) true true
      ≠ Qt.IoWatch.delivered 100 7 3 (IN ||| OUT) true true := by
  decide

/-- C5, amended: with `G_IO_IN` and `G_IO_OUT` two non-empty disjoint masks,
for every watched `dir` among `IN`, `OUT`, `IN|OUT`, every handler and every
readiness of the descriptor, the directions reported to the handler, or-ed
together, are the same in the two back ends; the sequences of `ready` calls
are equal unless `dir` is `IN|OUT` and the descriptor is readable and writable
at once; and in that case, with a handler set, GTK makes the single call
`ready(IN|OUT)` where Qt makes the calls `ready(IN)` and `ready(OUT)`. -/
theorem iowatch_backends_agree_up_to_merging (G_IO_IN G_IO_OUT : Nat)
    (hin : G_IO_IN ≠ 0) (hout : G_IO_OUT ≠ 0) (hdisj : G_IO_IN &&& G_IO_OUT = 0)
    (self h : Ptr) (fd : Int) (dir : Nat)
    (hdir : dir = IN ∨ dir = OUT ∨ dir = IN ||| OUT)
    (readable writable : Bool) :
    readyDirs (Gtk.IoWatch.delivered G_IO_IN G_IO_OUT self h fd dir readable writable)
      = readyDirs (Qt.IoWatch.delivered self h fd dir readable writable) ∧
    (¬ (dir = IN ||| OUT ∧ readable = true ∧ writable = true) →
      Gtk.IoWatch.delivered G_IO_IN G_IO_OUT self h fd dir readable writable
        = Qt.IoWatch.delivered self h fd dir readable writable) ∧
    (dir = IN ||| OUT ∧ readable = true ∧ writable = true ∧ h ≠ NULL →
      Gtk.IoWatch.delivered G_IO_IN G_IO_OUT self h fd dir readable writable
        = [HandlerCall.iowatch_ready h self (IN ||| OUT)] ∧
      Qt.IoWatch.delivered self h fd dir readable writable
        = [HandlerCall.iowatch_ready h self IN, HandlerCall.iowatch_ready h self OUT]) := by
  have hdisj2 : G_IO_OUT &&& G_IO_IN = 0 := by rw [Nat.and_comm]; exact hdisj
  obtain ⟨c1, c2, c3⟩ := Gtk.IoWatch.cond_of_dir_cases G_IO_IN G_IO_OUT
  have hl := or_and_self_left _ _ hdisj
  have hr := or_and_self_right _ _ hdisj
  have hio : G_IO_IN ||| G_IO_OUT ≠ 0 := by
    intro h0
    rw [h0] at hl
    exact hin (by rw [← hl]; simp)
  have q1 : Qt.IoWatch.construct self fd IN = ⟨self, NULL, some fd, none⟩ := by
    simp [Qt.IoWatch.construct, IN, OUT]
  have q2 : Qt.IoWatch.construct self fd OUT = ⟨self, NULL, none, some fd⟩ := by
    simp [Qt.IoWatch.construct, IN, OUT]
  have q3 : Qt.IoWatch.construct self fd (IN ||| OUT)
      = ⟨self, NULL, some fd, some fd⟩ := by
    simp [Qt.IoWatch.construct, IN, OUT]
  unfold Gtk.IoWatch.delivered Qt.IoWatch.delivered
  rcases hdir with rfl | rfl | rfl <;>
    simp only [Gtk.IoWatch.construct, c1, c2, c3, q1, q2, q3] <;>
    cases readable <;> cases writable <;> by_cases hh : h = NULL <;>
    simp [Gtk.IoWatch.dispatch, Gtk.IoWatch.set_handler, Gtk.IoWatch.io_watch_cb,
      Gtk.IoWatch.dir_of_cond_eq, Qt.IoWatch.dispatch, Qt.IoWatch.set_handler,
      Qt.IoWatch.rd_activated_slot, Qt.IoWatch.wr_activated_slot, readyDirs,
      Nat.and_self, Nat.and_or_distrib_left, hin, hout, hdisj, hdisj2, hl, hr,
      hio, hh, IN, OUT]

/-- C5 amended, at GLib's `G_IO_IN = 1` and `G_IO_OUT = 4`, for a watch of
`IN|OUT` with handler `7` on a descriptor that is readable and not writable. -/
theorem iowatch_backends_agree_up_to_merging_witness :
    readyDirs (Gtk.IoWatch.delivered 1 4 100 7 3 (IN ||| OUT) true false)
      = readyDirs (Qt.IoWatch.delivered 100 7 3 (IN ||| OUT) true false) ∧
    (¬ (IN ||| OUT = IN ||| OUT ∧ true = true ∧ false = true) →
      Gtk.IoWatch.delivered 1 4 100 7 3 (IN ||| OUT) true false
        = Qt.IoWatch.delivered 100 7 3 (IN ||| OUT) true false) ∧
    (IN ||| OUT = IN ||| OUT ∧ true = true ∧ false = true ∧ (7 : Ptr) ≠ NULL →
      Gtk.IoWatch.delivered 1 4 100 7 3 (IN ||| OUT) true false
        = [HandlerCall.iowatch_ready 7 100 (IN ||| OUT)] ∧
      Qt.IoWatch.delivered 100 7 3 (IN ||| OUT) true false
        = [HandlerCall.iowatch_ready 7 100 IN, HandlerCall.iowatch_ready 7 100 OUT]) :=
  iowatch_backends_agree_up_to_merging 1 4 (by decide) (by decide) (by decide)
    100 7 3 (IN ||| OUT) (Or.inr (Or.inr rfl)) true false

/-- Overwriting a row that exists changes that row as asked. -/
theorem updateRow_get_self (f : GtkRow → GtkRow) (rows : List GtkRow) (i : Nat)
    (h : i < rows.length) :
    (updateRow f rows i).get? i = (rows.get? i).map f := by
  induction rows generalizing i with
  | nil => simp at h
  | cons a t ih =>
    cases i with
    | zero => simp [updateRow]
    | succ j =>
      have hj : j < t.length := by simpa using h
      simpa [updateRow] using ih j hj

/-- C6, refuted as stated: in the GTK back end `set_text` on an item that was
not added to a `ListBox` makes no native call; the list store of a list box
holding another item is, with the record of the calls made on it, exactly as
before, and only the member `m_text` changes. -/
theorem gtk_set_text_before_add_makes_no_native_call :
    Gtk.ListBoxItem.set_text (fun s => s) (Gtk.ListBoxItem.construct 1 "a") "b"
        (Gtk.ListBox.add_item (fun s => s) (Gtk.ListBox.construct 9)
          (Gtk.ListBoxItem.construct 2 "x")).1.m_store
      = (⟨1, "b", none⟩,
         (Gtk.ListBox.add_item (fun s => s) (Gtk.ListBox.construct 9)
          (Gtk.ListBoxItem.construct 2 "x")).1.m_store) ∧
    (Gtk.ListBox.add_item (fun s => s) (Gtk.ListBox.construct 9)
          (Gtk.ListBoxItem.construct 2 "x")).1.m_store.calls
      = [StoreCall.append, StoreCall.set_text_item (some 0) "x" 2] := by
  exact ⟨rfl, rfl⟩

/-- C6, amended: in the Qt back end `set_text(t)` always makes the native call
`setText` that sets the text of the native item to `t`. In the GTK back end
`set_text(t)` stores `t` in `m_text`; for an item that was added to a
`ListBox` (`add_item` leaves `m_rowref` non-null, the constructor leaves it
`NULL`) it makes the one native call `gtk_list_store_set` with the encoding of
`t`, which sets the text of the item's row, and for an item that was not added
it makes no native call. -/
theorem listboxitem_set_text_forwarding (enc : String → String)
    (gitem : Gtk.ListBoxItem) (qitem : Qt.ListBoxItem) (t : String)
    (model : GtkListStore) :
    (Qt.ListBoxItem.set_text qitem t).m_qtitem
      = qitem.m_qtitem.setText (fromStdWString t) ∧
    (Qt.ListBoxItem.set_text qitem t).m_qtitem.text = t ∧
    (Gtk.ListBoxItem.set_text enc gitem t model).1 = ⟨gitem.self, t, gitem.m_rowref⟩ ∧
    (∀ r, gitem.m_rowref = some r →
      (Gtk.ListBoxItem.set_text enc gitem t model).2.calls
        = model.calls
            ++ [StoreCall.set_text (gtk_tree_model_get_iter model (some r)) (enc t)] ∧
      (r < model.rows.length →
        ((Gtk.ListBoxItem.set_text enc gitem t model).2.rows.get? r).map GtkRow.text
          = some (enc t))) ∧
    (gitem.m_rowref = none →
      (Gtk.ListBoxItem.set_text enc gitem t model).2 = model) ∧
    (∀ self text, (Gtk.ListBoxItem.construct self text).m_rowref = none) ∧
    (∀ l, (Gtk.ListBox.add_item enc l gitem).2.m_rowref = some l.m_store.rows.length) := by
  refine ⟨rfl, rfl, ?_, ?_, ?_, fun _ _ => rfl, ?_⟩
  · unfold Gtk.ListBoxItem.set_text
    cases gitem.m_rowref <;> rfl
  · intro r hr
    unfold Gtk.ListBoxItem.set_text
    simp only [hr]
    refine ⟨rfl, ?_⟩
    intro hlt
    simp only [gtk_list_store_set_text, gtk_tree_model_get_iter,
      gtk_tree_row_reference_get_path, if_pos hlt]
    rw [updateRow_get_self _ _ _ hlt]
    rw [List.get?_eq_getElem?, List.getElem?_eq_getElem hlt]
    rfl
  · intro hn
    unfold Gtk.ListBoxItem.set_text
    simp only [hn]
  · intro l
    simp [Gtk.ListBox.add_item, gtk_list_store_append, gtk_list_store_set_text_item,
      gtk_tree_model_get_path, gtk_tree_row_reference_new, updateRow_append_length]

/-- C7, the code at the failing input: in the Qt back end `show()` right
after construction dereferences `m_qtwidget`, which nothing has assigned, so
it reaches no native widget, while after `set_widget` it shows the widget
given; in the GTK back end `show()` shows the window the constructor made,
before and after `set_widget`. -/
theorem qt_window_show_before_set_widget (enc : String → String) (title : String)
    (widget : Ptr) :
    Qt.Window.show (Qt.Window.construct title) = none ∧
    Qt.Window.show (Qt.Window.set_widget (Qt.Window.construct title) widget).1
      = some [QWidgetCall.show widget] ∧
    (Gtk.Window.show (Gtk.Window.construct enc title)).m_gtkwidget.visible = true ∧
    (Gtk.Window.show (Gtk.Window.set_widget (Gtk.Window.construct enc title) widget)
      ).m_gtkwidget.visible = true :=
  ⟨rfl, rfl, rfl, rfl⟩

/-- One `add_widget` or-s the widget's flag into the layout's flag, for each
orientation. -/
theorem Gtk.BoxLayout.expandable_add_widget (l : Gtk.BoxLayout) (w : Gtk.Widget)
    (p : Ptr) (o : Orientation) :
    (Gtk.BoxLayout.add_widget l w p).expandable o
      = (l.expandable o || w.expandable o) := by
  unfold Gtk.BoxLayout.add_widget Gtk.BoxLayout.expandable
  cases o <;>
    cases hH : w.expandable Orientation.HORIZONTAL <;>
    cases hV : w.expandable Orientation.VERTICAL <;>
    simp [expandableAt, expandableSet]

/-- A run of `add_widget` calls or-s the flags of all the widgets into the
layout's flag. -/
theorem Gtk.BoxLayout.expandable_add_widgets (ws : List (Gtk.Widget × Ptr))
    (l : Gtk.BoxLayout) (o : Orientation) :
    (Gtk.BoxLayout.add_widgets l ws).expandable o
      = (l.expandable o || ws.any (fun w => w.1.expandable o)) := by
  induction ws generalizing l with
  | nil => simp [Gtk.BoxLayout.add_widgets]
  | cons a t ih =>
    obtain ⟨w, p⟩ := a
    simp [Gtk.BoxLayout.add_widgets, ih, Gtk.BoxLayout.expandable_add_widget,
      Bool.or_assoc]

/-- A layout as its constructor leaves it is expandable in no orientation. -/
theorem Gtk.BoxLayout.expandable_construct (v : Int) (l : Gtk.BoxLayout)
    (h : Gtk.BoxLayout.construct v = Except.ok l) (o : Orientation) :
    l.expandable o = false := by
  unfold Gtk.BoxLayout.construct at h
  split at h
  · cases h; cases o <;> rfl
  · split at h
    · cases h; cases o <;> rfl
    · cases h

/-- C9: in the GTK back end, for a `BoxLayout` `l0` fresh from its constructor
(with either orientation `o0`) and every sequence `ws` of `add_widget` calls,
`expandable(o)` is false on `l0`, and afterwards is the logical or, over the
widgets added, of the value `expandable(o)` of each when it was added; once
true it stays true under a further `add_widget`; it is the same for a layout
made with any other orientation; a layout holding at least one widget and
only `Button`s and `Entry`s is expandable horizontally and not vertically; a
layout holding a `ListBox` is expandable in both orientations. -/
theorem boxlayout_expandable_is_or_of_added (o0 : Orientation) (l0 : Gtk.BoxLayout)
    (h0 : Gtk.BoxLayout.construct o0.toInt = Except.ok l0)
    (ws : List (Gtk.Widget × Ptr)) (o : Orientation) :
    l0.expandable o = false ∧
    (Gtk.BoxLayout.add_widgets l0 ws).expandable o
      = ws.any (fun w => w.1.expandable o) ∧
    (∀ w p, (Gtk.BoxLayout.add_widgets l0 ws).expandable o = true →
      (Gtk.BoxLayout.add_widget (Gtk.BoxLayout.add_widgets l0 ws) w p).expandable o
        = true) ∧
    (∀ o1 l1, Gtk.BoxLayout.construct (Orientation.toInt o1) = Except.ok l1 →
      (Gtk.BoxLayout.add_widgets l1 ws).expandable o
        = (Gtk.BoxLayout.add_widgets l0 ws).expandable o) ∧
    (ws ≠ [] → (∀ w ∈ ws, w.1.isButtonOrEntry = true) →
      (Gtk.BoxLayout.add_widgets l0 ws).expandable Orientation.HORIZONTAL = true ∧
      (Gtk.BoxLayout.add_widgets l0 ws).expandable Orientation.VERTICAL = false) ∧
    ((∃ w ∈ ws, w.1.isListBox = true) →
      (Gtk.BoxLayout.add_widgets l0 ws).expandable Orientation.HORIZONTAL = true ∧
      (Gtk.BoxLayout.add_widgets l0 ws).expandable Orientation.VERTICAL = true) := by
  have hf := Gtk.BoxLayout.expandable_construct _ _ h0
  have hor : ∀ o2, (Gtk.BoxLayout.add_widgets l0 ws).expandable o2
      = ws.any (fun w => w.1.expandable o2) := by
    intro o2
    rw [Gtk.BoxLayout.expandable_add_widgets, hf o2, Bool.false_or]
  have hbe : ∀ w : Gtk.Widget, w.isButtonOrEntry = true →
      w.expandable Orientation.HORIZONTAL = true
        ∧ w.expandable Orientation.VERTICAL = false := by
    intro w hw
    cases w <;> simp [Gtk.Widget.isButtonOrEntry] at hw <;>
      exact ⟨rfl, rfl⟩
  have hlb : ∀ (w : Gtk.Widget) (o2 : Orientation), w.isListBox = true →
      w.expandable o2 = true := by
    intro w o2 hw
    cases w <;> simp [Gtk.Widget.isListBox] at hw
    rfl
  refine ⟨hf o, hor o, ?_, ?_, ?_, ?_⟩
  · intro w p ht
    rw [Gtk.BoxLayout.expandable_add_widget, ht, Bool.true_or]
  · intro o1 l1 h1
    rw [hor o, Gtk.BoxLayout.expandable_add_widgets,
      Gtk.BoxLayout.expandable_construct _ _ h1 o, Bool.false_or]
  · intro hne hall
    rw [hor, hor]
    constructor
    · obtain ⟨a, t, rfl⟩ := List.exists_cons_of_ne_nil hne
      rw [List.any_cons, (hbe a.1 (hall a (List.mem_cons_self _ _))).1, Bool.true_or]
    · rw [List.any_eq_false]
      intro w hw
      simp [(hbe w.1 (hall w hw)).2]
  · rintro ⟨w, hw, hl⟩
    rw [hor, hor]
    constructor <;>
      exact List.any_eq_true.mpr ⟨w, hw, hlb w.1 _ hl⟩

/-- C9, at a vertical layout to which a `Button`, an `Entry` and then a
`ListBox` are added, asked for its vertical flag. -/
theorem boxlayout_expandable_is_or_of_added_witness :
    Gtk.BoxLayout.construct Orientation.VERTICAL.toInt
      = Except.ok ⟨.VERTICAL, (false, false), gtk_vbox_new false 3⟩ ∧
    (Gtk.BoxLayout.expandable ⟨.VERTICAL, (false, false), gtk_vbox_new false 3⟩
        Orientation.VERTICAL = false ∧
      (Gtk.BoxLayout.add_widgets ⟨.VERTICAL, (false, false), gtk_vbox_new false 3⟩
          [(Gtk.Widget.button ⟨1, 0⟩, 11), (Gtk.Widget.entry ⟨2, 0⟩, 12),
           (Gtk.Widget.listbox (Gtk.ListBox.construct 3), 13)]
        ).expandable Orientation.VERTICAL
        = List.any [(Gtk.Widget.button ⟨1, 0⟩, 11), (Gtk.Widget.entry ⟨2, 0⟩, 12),
           (Gtk.Widget.listbox (Gtk.ListBox.construct 3), 13)]
          (fun w => w.1.expandable Orientation.VERTICAL) ∧
      (Gtk.BoxLayout.add_widgets ⟨.VERTICAL, (false, false), gtk_vbox_new false 3⟩
          [(Gtk.Widget.button ⟨1, 0⟩, 11), (Gtk.Widget.entry ⟨2, 0⟩, 12),
           (Gtk.Widget.listbox (Gtk.ListBox.construct 3), 13)]
        ).expandable Orientation.VERTICAL = true) :=
  ⟨rfl,
   (boxlayout_expandable_is_or_of_added Orientation.VERTICAL
      ⟨.VERTICAL, (false, false), gtk_vbox_new false 3⟩ rfl
      [(Gtk.Widget.button ⟨1, 0⟩, 11), (Gtk.Widget.entry ⟨2, 0⟩, 12),
       (Gtk.Widget.listbox (Gtk.ListBox.construct 3), 13)]
      Orientation.VERTICAL).1,
   (boxlayout_expandable_is_or_of_added Orientation.VERTICAL
      ⟨.VERTICAL, (false, false), gtk_vbox_new false 3⟩ rfl
      [(Gtk.Widget.button ⟨1, 0⟩, 11), (Gtk.Widget.entry ⟨2, 0⟩, 12),
       (Gtk.Widget.listbox (Gtk.ListBox.construct 3), 13)]
      Orientation.VERTICAL).2.1,
   ((boxlayout_expandable_is_or_of_added Orientation.VERTICAL
      ⟨.VERTICAL, (false, false), gtk_vbox_new false 3⟩ rfl
      [(Gtk.Widget.button ⟨1, 0⟩, 11), (Gtk.Widget.entry ⟨2, 0⟩, 12),
       (Gtk.Widget.listbox (Gtk.ListBox.construct 3), 13)]
      Orientation.VERTICAL).2.2.2.2.2
      ⟨(Gtk.Widget.listbox (Gtk.ListBox.construct 3), 13), by simp, rfl⟩).2⟩

/-- With an instance registered, a run of construction attempts leaves the
registration as it is (GTK). -/
theorem gtk_constructAll_registered (ps : List Ptr) (g : Globals)
    (h : g.m_instance ≠ NULL) :
    constructAll Gtk.Application.construct ps g = g := by
  induction ps with
  | nil => rfl
  | cons p t ih => simp [constructAll, Gtk.Application.construct, h, ih]

/-- With an instance registered, a run of construction attempts leaves the
registration as it is (Qt). -/
theorem qt_constructAll_registered (ps : List Ptr) (g : Globals)
    (h : g.m_instance ≠ NULL) :
    constructAll Qt.Application.construct ps g = g := by
  induction ps with
  | nil => rfl
  | cons p t ih => simp [constructAll, Qt.Application.construct, h, ih]

/-- C10: in both back ends, the first construction of an `Application` (at
the address `first` of an object, which is not `NULL`, with nothing
registered) succeeds and makes `Application::instance()` return `first`;
after any run `before` of later attempts, a further attempt raises and
`Application::instance()` still returns `first`, not the address of the
object whose construction failed; and in every state, an attempt that raises
leaves the static data unchanged. -/
theorem application_instance_kept_when_construct_raises (first : Ptr)
    (hfirst : first ≠ NULL) (before : List Ptr) (attempt : Ptr) :
    ((Gtk.Application.construct first Globals.initial).raised = none ∧
      Application.instance (Gtk.Application.construct first Globals.initial).globals
        = first ∧
      (Gtk.Application.construct attempt
          (constructAll Gtk.Application.construct before
            (Gtk.Application.construct first Globals.initial).globals)).raised
        = some "Application instance already created" ∧
      Application.instance
        (Gtk.Application.construct attempt
          (constructAll Gtk.Application.construct before
            (Gtk.Application.construct first Globals.initial).globals)).globals
        = first ∧
      (∀ self g, (Gtk.Application.construct self g).raised ≠ none →
        (Gtk.Application.construct self g).globals = g)) ∧
    ((Qt.Application.construct first Globals.initial).raised = none ∧
      Application.instance (Qt.Application.construct first Globals.initial).globals
        = first ∧
      (Qt.Application.construct attempt
          (constructAll Qt.Application.construct before
            (Qt.Application.construct first Globals.initial).globals)).raised
        = some "Application instance already created" ∧
      Application.instance
        (Qt.Application.construct attempt
          (constructAll Qt.Application.construct before
            (Qt.Application.construct first Globals.initial).globals)).globals
        = first ∧
      (∀ self g, (Qt.Application.construct self g).raised ≠ none →
        (Qt.Application.construct self g).globals = g)) := by
  have hg : (Gtk.Application.construct first Globals.initial).globals = ⟨first⟩ := rfl
  have hq : (Qt.Application.construct first Globals.initial).globals = ⟨first⟩ := rfl
  have hne : (⟨first⟩ : Globals).m_instance ≠ NULL := hfirst
  constructor
  · refine ⟨rfl, rfl, ?_, ?_, ?_⟩
    · rw [hg, gtk_constructAll_registered _ _ hne]
      simp [Gtk.Application.construct, hfirst]
    · rw [hg, gtk_constructAll_registered _ _ hne]
      simp [Gtk.Application.construct, hfirst, Application.instance]
    · intro self g
      unfold Gtk.Application.construct
      by_cases h : g.m_instance = NULL <;> simp [h]
  · refine ⟨rfl, rfl, ?_, ?_, ?_⟩
    · rw [hq, qt_constructAll_registered _ _ hne]
      simp [Qt.Application.construct, hfirst]
    · rw [hq, qt_constructAll_registered _ _ hne]
      simp [Qt.Application.construct, hfirst, Application.instance]
    · intro self g
      unfold Qt.Application.construct
      by_cases h : g.m_instance = NULL <;> simp [h]

/-- C10, at a first object at `100`, later attempts at `200` and `300`, and a
further attempt at `400`. -/
theorem application_instance_kept_when_construct_raises_witness :
    (100 : Ptr) ≠ NULL ∧
    (Gtk.Application.construct 100 Globals.initial).raised = none ∧
    Application.instance (Gtk.Application.construct 100 Globals.initial).globals = 100 ∧
    (Gtk.Application.construct 400
        (constructAll Gtk.Application.construct [200, 300]
          (Gtk.Application.construct 100 Globals.initial).globals)).raised
      = some "Application instance already created" ∧
    Application.instance
      (Gtk.Application.construct 400
        (constructAll Gtk.Application.construct [200, 300]
          (Gtk.Application.construct 100 Globals.initial).globals)).globals
      = 100 ∧
    (Qt.Application.construct 400
        (constructAll Qt.Application.construct [200, 300]
          (Qt.Application.construct 100 Globals.initial).globals)).raised
      = some "Application instance already created" ∧
    Application.instance
      (Qt.Application.construct 400
        (constructAll Qt.Application.construct [200, 300]
          (Qt.Application.construct 100 Globals.initial).globals)).globals
      = 100 :=
  ⟨by decide,
   (application_instance_kept_when_construct_raises 100 (by decide) [200, 300] 400).1.1,
   (application_instance_kept_when_construct_raises 100 (by decide) [200, 300] 400).1.2.1,
   (application_instance_kept_when_construct_raises 100 (by decide) [200, 300] 400).1.2.2.1,
   (application_instance_kept_when_construct_raises 100 (by decide) [200, 300] 400).1.2.2.2.1,
   (application_instance_kept_when_construct_raises 100 (by decide) [200, 300] 400).2.2.2.1,
   (application_instance_kept_when_construct_raises 100 (by decide) [200, 300] 400).2.2.2.2.1⟩

/-- A run of `set_text` calls on an item whose `m_rowref` is `NULL` leaves the
list store alone and the row reference `NULL`, and keeps the last text given
(the one the item had, if the run is empty). -/
theorem Gtk.ListBoxItem.set_texts_unadded (enc : String → String)
    (texts : List String) (item : Gtk.ListBoxItem) (model : GtkListStore)
    (h : item.m_rowref = none) :
    Gtk.ListBoxItem.set_texts enc item texts model
      = (⟨item.self, texts.getLast?.getD item.m_text, none⟩, model) := by
  induction texts generalizing item with
  | nil =>
    obtain ⟨s, t, r⟩ := item
    cases h
    rfl
  | cons a t ih =>
    have hs : Gtk.ListBoxItem.set_text enc item a model
        = (⟨item.self, a, none⟩, model) := by
      unfold Gtk.ListBoxItem.set_text
      simp only [h]
    simp only [Gtk.ListBoxItem.set_texts, hs]
    rw [ih ⟨item.self, a, none⟩ rfl]
    cases t with
    | nil => rfl
    | cons b u =>
      simp only [List.getLast?_cons_cons]
      rw [List.getLast?_eq_getLast _ (List.cons_ne_nil b u)]
      rfl

/-- C11: in the GTK back end, for every item fresh from its constructor (at
`self`, with text `text0`) and every run `texts` of `set_text` calls made
before `add_item`, the calls leave every list store, with the record of the
native calls made on it, exactly as it was, and the item holds the text given
last (`text0` if the run is empty) with `m_rowref` still `NULL`; `add_item`
then makes the two native calls `gtk_list_store_append` and
`gtk_list_store_set`, and the one row they create carries the UTF-8 encoding
of that text together with the pointer `self`, the item's row reference
pointing to it. -/
theorem listboxitem_text_kept_until_added (enc : String → String) (self : Ptr)
    (text0 : String) (texts : List String) (model : GtkListStore)
    (l : Gtk.ListBox) :
    (Gtk.ListBoxItem.set_texts enc (Gtk.ListBoxItem.construct self text0) texts
        model).2 = model ∧
    (Gtk.ListBoxItem.set_texts enc (Gtk.ListBoxItem.construct self text0) texts
        model).1 = ⟨self, texts.getLast?.getD text0, none⟩ ∧
    (Gtk.ListBox.add_item enc l
        (Gtk.ListBoxItem.set_texts enc (Gtk.ListBoxItem.construct self text0) texts
          model).1).1.m_store.rows
      = l.m_store.rows ++ [⟨enc (texts.getLast?.getD text0), self⟩] ∧
    (Gtk.ListBox.add_item enc l
        (Gtk.ListBoxItem.set_texts enc (Gtk.ListBoxItem.construct self text0) texts
          model).1).1.m_store.calls
      = l.m_store.calls
          ++ [StoreCall.append,
              StoreCall.set_text_item (some l.m_store.rows.length)
                (enc (texts.getLast?.getD text0)) self] ∧
    (Gtk.ListBox.add_item enc l
        (Gtk.ListBoxItem.set_texts enc (Gtk.ListBoxItem.construct self text0) texts
          model).1).2
      = ⟨self, texts.getLast?.getD text0, some l.m_store.rows.length⟩ := by
  have hs := Gtk.ListBoxItem.set_texts_unadded enc texts
    (Gtk.ListBoxItem.construct self text0) model rfl
  have hc : (Gtk.ListBoxItem.construct self text0).self = self := rfl
  have ht : (Gtk.ListBoxItem.construct self text0).m_text = text0 := rfl
  rw [hc, ht] at hs
  rw [hs]
  refine ⟨rfl, rfl, ?_, ?_, ?_⟩
  · exact (Gtk.ListBox.add_item_fst enc l _).2.2
  · simp [Gtk.ListBox.add_item, gtk_list_store_append, gtk_list_store_set_text_item]
  · simp [Gtk.ListBox.add_item, gtk_list_store_append, gtk_list_store_set_text_item,
      gtk_tree_model_get_path, gtk_tree_row_reference_new, updateRow_append_length]

end tinyui
